import Mathlib

/-!
Verification development for `kws_streaming/models/crnn.py`.

The file embeds the two functions of the source, `model_parameters` and
`model`, as Lean definitions, together with a shape semantics for the layer
graph that `model` builds.  The external layer primitives (SpeechFeatures,
Stream, Conv2D, GRU, Dense, Dropout, Reshape, Flatten) and the helper
`parse` from `kws_streaming/models/utils.py` are not part of the source
tree; they are modelled from the spec where needed, as marked in the
relevant doc comments.
-/

/-- Modelled from the spec: `kws_streaming/models/utils.parse` is not under
the source tree; the spec describes the hyperparameters as "delimited
strings" that `model` "parses ... into per-layer configuration tuples".
`parseTokens` splits a character list at top-level commas; a comma inside
parentheses belongs to a tuple entry such as (3,3). -/
def parseTokens : List Char → Nat → String → List String
  | [], _, cur => [cur]
  | c :: rest, depth, cur =>
    if c = ',' ∧ depth = 0 then
      cur :: parseTokens rest 0 ""
    else if c = '(' then
      parseTokens rest (depth + 1) (cur.push c)
    else if c = ')' then
      parseTokens rest (depth - 1) (cur.push c)
    else
      parseTokens rest depth (cur.push c)

/-- Modelled from the spec: the list of per-layer configuration entries
encoded by a delimited hyperparameter string.  The empty string encodes the
empty list; otherwise the entries are the top-level comma-separated
tokens. -/
def parse (text : String) : List String :=
  if text = "" then [] else parseTokens text.data 0 ""

/-- A parsed per-layer parameter value: either an integer (such as the
`label_count` passed directly to the final Dense layer) or a raw token from
a delimited hyperparameter string. -/
inductive PVal where
  | int (n : Int)
  | str (s : String)

deriving instance DecidableEq, Repr for PVal

/-- The keyword arguments passed to the `SpeechFeatures` layer constructor in
`model`, in source order.  The layer itself is an external collaborator; only
the values `model` hands to it are recorded. -/
structure SFParams where
  frame_size_ms : ℚ
  frame_step_ms : ℚ
  sample_rate : Nat
  use_tf_fft : Bool
  preemph : ℚ
  window_type : String
  feature_type : String
  mel_num_bins : Nat
  mel_lower_edge_hertz : ℚ
  mel_upper_edge_hertz : ℚ
  mel_non_zero_only : Bool
  fft_magnitude_squared : Bool
  dct_num_features : Nat

deriving instance DecidableEq, Repr for SFParams

/-- One node of the layer graph built by `model`, recording the constructor
arguments taken from the flags.  String fields hold the raw parsed tokens of
the delimited hyperparameter strings.  `reshapeTF` stands for
`tf.keras.layers.Reshape((-1, shape[2] * shape[3]))` where `shape` is the
shape of the incoming tensor (the output of the last convolution layer), so
its target is determined by the incoming shape and is not stored. -/
inductive Layer where
  | input (desired_samples : Nat) (batch_size : Nat)
  | speechFeatures (p : SFParams)
  | expandDims
  | streamConv2D (filters kernel_size activation dilation_rate strides : String)
  | reshapeTF
  | gru (units return_sequences : String) (stateful : Int)
  | streamFlatten
  | dropout (rate : ℚ)
  | dense (units : PVal) (activation : Option String)

deriving instance DecidableEq, Repr for Layer

/-- The fields of the `flags` record that `model` and `model_parameters`
read: the eleven hyperparameters registered by `model_parameters`, the
input/output dimensioning fields, and the feature-extraction fields handed
to `SpeechFeatures`. -/
structure Flags where
  cnn_filters : String
  cnn_kernel_size : String
  cnn_act : String
  cnn_dilation_rate : String
  cnn_strides : String
  gru_units : String
  return_sequences : String
  stateful : Int
  dropout1 : ℚ
  units1 : String
  act1 : String
  desired_samples : Nat
  batch_size : Nat
  label_count : Nat
  window_size_ms : ℚ
  window_stride_ms : ℚ
  sample_rate : Nat
  use_tf_fft : Bool
  preemph : ℚ
  window_type : String
  feature_type : String
  mel_num_bins : Nat
  mel_lower_edge_hertz : ℚ
  mel_upper_edge_hertz : ℚ
  mel_non_zero_only : Bool
  fft_magnitude_squared : Bool
  dct_num_features : Nat

deriving instance DecidableEq, Repr for Flags

/-- The `SpeechFeatures` constructor arguments as `model` fills them from
the flags (source lines 115-128). -/
def sfParamsOf (flags : Flags) : SFParams :=
  { frame_size_ms := flags.window_size_ms
    frame_step_ms := flags.window_stride_ms
    sample_rate := flags.sample_rate
    use_tf_fft := flags.use_tf_fft
    preemph := flags.preemph
    window_type := flags.window_type
    feature_type := flags.feature_type
    mel_num_bins := flags.mel_num_bins
    mel_lower_edge_hertz := flags.mel_lower_edge_hertz
    mel_upper_edge_hertz := flags.mel_upper_edge_hertz
    mel_non_zero_only := flags.mel_non_zero_only
    fft_magnitude_squared := flags.fft_magnitude_squared
    dct_num_features := flags.dct_num_features }

/-- Python's five-argument `zip`: pairs entries positionally and stops at
the shortest of the five lists. -/
def zip5 {α β γ δ ε : Type} (as : List α) (bs : List β) (cs : List γ)
    (ds : List δ) (es : List ε) : List (α × β × γ × δ × ε) :=
  as.zip (bs.zip (cs.zip (ds.zip es)))

/-- Embedding of `crnn.model` (source lines 98-167).  The Keras graph is
represented as the ordered list of layers applied to the input tensor; each
`for`-loop over a `zip` of parsed parameter lists appends one layer per
tuple, exactly as in the source.  The flags record is returned alongside the
layer list to make explicit that the source only reads `flags`: no statement
of `model` assigns to any field of it. -/
def model (flags : Flags) : List Layer × Flags :=
  let input_audio : List Layer :=
    [Layer.input flags.desired_samples flags.batch_size]
  let net := input_audio ++ [Layer.speechFeatures (sfParamsOf flags)]
  let net := net ++ [Layer.expandDims]
  let net :=
    (zip5 (parse flags.cnn_filters) (parse flags.cnn_kernel_size)
        (parse flags.cnn_act) (parse flags.cnn_dilation_rate)
        (parse flags.cnn_strides)).foldl
      (fun n q => n ++ [Layer.streamConv2D q.1 q.2.1 q.2.2.1 q.2.2.2.1 q.2.2.2.2])
      net
  let net := net ++ [Layer.reshapeTF]
  let net :=
    ((parse flags.gru_units).zip (parse flags.return_sequences)).foldl
      (fun n q => n ++ [Layer.gru q.1 q.2 flags.stateful]) net
  let net := net ++ [Layer.streamFlatten]
  let net := net ++ [Layer.dropout flags.dropout1]
  let net :=
    ((parse flags.units1).zip (parse flags.act1)).foldl
      (fun n q => n ++ [Layer.dense (PVal.str q.1) (some q.2)]) net
  let net := net ++ [Layer.dense (PVal.int (flags.label_count : Int)) none]
  (net, flags)

/-- The layer graph built by `model`, without the (unchanged) flags. -/
def modelLayers (flags : Flags) : List Layer :=
  (model flags).1

/-- The `type=` keyword of an `add_argument` call in `model_parameters`. -/
inductive ArgType where
  | tStr
  | tInt
  | tFloat

deriving instance DecidableEq, Repr for ArgType

/-- The `default=` keyword of an `add_argument` call, recorded exactly as
written in the source (hence the `stateful` option carries the string
default written there even though its declared type is int). -/
inductive ArgDefault where
  | dStr (v : String)
  | dInt (v : Int)
  | dFloat (v : ℚ)

deriving instance DecidableEq, Repr for ArgDefault

/-- One registered command-line option: name, declared type, default and
help text, as passed to `parser_nn.add_argument`. -/
structure ArgSpec where
  name : String
  type : ArgType
  default : ArgDefault
  help : String

deriving instance DecidableEq, Repr for ArgSpec

/-- The single-quote character, written by code point to keep source
strings free of quote glyphs. -/
def squote : String := String.mk [Char.ofNat 39]

/-- Wraps a token in single quotes, as the activation defaults are written
in the source. -/
def quoted (s : String) : String := squote ++ s ++ squote

/-- Default of `--cnn_filters` (source line 29). -/
def default_cnn_filters : String := "64,64,64,64,64,64,128"

/-- Default of `--cnn_kernel_size` (source line 35). -/
def default_cnn_kernel_size : String := "(3,3),(5,3),(5,3),(5,3),(5,2),(5,1),(5,1)"

/-- Default of `--cnn_act` (source line 41): the string
`'relu','selu','selu','selu','selu','selu','selu'` including the single
quotes around each token. -/
def default_cnn_act : String :=
  String.intercalate ","
    (List.map quoted ["relu", "selu", "selu", "selu", "selu", "selu", "selu"])

/-- Default of `--cnn_dilation_rate` (source line 47). -/
def default_cnn_dilation_rate : String := "(1,1),(1,1),(2,1),(1,1),(2,1),(1,1),(2,1)"

/-- Default of `--cnn_strides` (source line 53). -/
def default_cnn_strides : String := "(1,1),(1,1),(1,1),(1,1),(1,1),(1,1),(1,1)"

/-- Models one `parser_nn.add_argument` call: appends the new option to the
registered list. -/
def addArgument (p : List ArgSpec) (nm : String) (ty : ArgType)
    (df : ArgDefault) (hp : String) : List ArgSpec :=
  p ++ [{ name := nm, type := ty, default := df, help := hp }]

/-- Embedding of `crnn.model_parameters` (source lines 25-95).  The
argparse parser is modelled as the list of options registered so far; each
`add_argument` call appends one `ArgSpec`, in source order. -/
def model_parameters (parser_nn : List ArgSpec) : List ArgSpec :=
  let p := addArgument parser_nn "cnn_filters" ArgType.tStr
    (ArgDefault.dStr default_cnn_filters)
    "Number of output filters in the convolution layers"
  let p := addArgument p "cnn_kernel_size" ArgType.tStr
    (ArgDefault.dStr default_cnn_kernel_size)
    "Heights and widths of the 2D convolution window"
  let p := addArgument p "cnn_act" ArgType.tStr
    (ArgDefault.dStr default_cnn_act)
    "Activation function in the convolution layers"
  let p := addArgument p "cnn_dilation_rate" ArgType.tStr
    (ArgDefault.dStr default_cnn_dilation_rate)
    "Dilation rate to use for dilated convolutions"
  let p := addArgument p "cnn_strides" ArgType.tStr
    (ArgDefault.dStr default_cnn_strides)
    "Strides of the convolution layers along the height and width"
  let p := addArgument p "gru_units" ArgType.tStr
    (ArgDefault.dStr "512")
    "Output space dimensionality of gru layer"
  let p := addArgument p "return_sequences" ArgType.tStr
    (ArgDefault.dStr "1")
    "Whether to return the last output in the output sequence, or the full sequence"
  let p := addArgument p "stateful" ArgType.tInt
    (ArgDefault.dStr "0")
    "If True, the last state for each sample at index i in a batch will be used as initial state for the sample of index i in the following batch"
  let p := addArgument p "dropout1" ArgType.tFloat
    (ArgDefault.dFloat (1 / 10))
    "Percentage of data dropped"
  let p := addArgument p "units1" ArgType.tStr
    (ArgDefault.dStr "")
    "Number of units in the last set of hidden layers"
  let p := addArgument p "act1" ArgType.tStr
    (ArgDefault.dStr "")
    "Activation function of the last set of hidden layers"
  p



/-- The numeric value of a decimal digit character, if it is one. -/
def digitVal? (c : Char) : Option Nat :=
  if c.isDigit then some (c.toNat - 48) else none

/-- Accumulates a decimal numeral; fails at the first non-digit. -/
def digitsAux : List Char → Nat → Option Nat
  | [], acc => some acc
  | c :: rest, acc =>
    match digitVal? c with
    | some d => digitsAux rest (acc * 10 + d)
    | none => none

/-- The natural number denoted by a non-empty all-digit character list. -/
def digitsToNat? : List Char → Option Nat
  | [] => none
  | c :: rest => digitsAux (c :: rest) 0

/-- Modelled from the spec: the integer a parsed token denotes, if any.
The real parser turns a numeric token such as 512 into a Python int; this
reads an optional leading minus sign followed by decimal digits. -/
def strToInt? (s : String) : Option Int :=
  match s.data with
  | [] => none
  | c :: rest =>
    if c = '-' then (digitsToNat? rest).map (fun n => -(n : Int))
    else (digitsToNat? (c :: rest)).map (fun n => (n : Int))

/-- Modelled from the spec: Python truthiness of a parsed token, as the GRU
layer consumes `return_sequences`.  An integer token is truthy iff nonzero;
any other non-empty token is truthy. -/
def tokenTruthy (s : String) : Bool :=
  match strToInt? s with
  | some n => n != 0
  | none => s != ""

/-- Modelled from the spec: the black-box collaborators whose output shapes
are not determined by this source file.  `sfShape` is the shape function of
the external `SpeechFeatures` layer and `convShape` that of a streaming
`Stream(Conv2D(...))` layer, given the five raw parameter tokens and the
incoming shape. -/
structure FrameworkSem where
  sfShape : SFParams → List Nat → Except String (List Nat)
  convShape : String → String → String → String → String →
    List Nat → Except String (List Nat)

/-- Modelled from the spec: shape semantics of one layer of the graph, with
shapes as dimension lists `[batch, ...]` and framework errors as `Except`
errors.  Standard layers follow their documented Keras behaviour: Input
yields `[batch_size, desired_samples]`; expand-dims appends a trailing
channel axis; `Reshape((-1, f * c))` (with `f`, `c` dimensions 2 and 3 of
the incoming shape) requires a rank-4 input whose element count per batch
row is a positive multiple of `f * c` and infers the remaining axis; GRU
requires a rank-3 input `[b, t, d]` and an integer unit count `u`, and
yields `[b, t, u]` when `return_sequences` is truthy, `[b, u]` otherwise;
Flatten collapses all non-batch axes into their product; Dropout keeps the
shape; Dense requires rank at least 2 and an integer unit count, and
replaces the last axis with it. -/
def layerShape (fw : FrameworkSem) : Layer → List Nat → Except String (List Nat)
  | Layer.input samples batch, _ => Except.ok [batch, samples]
  | Layer.speechFeatures p, s => fw.sfShape p s
  | Layer.expandDims, s => Except.ok (s ++ [1])
  | Layer.streamConv2D f k a d st, s => fw.convShape f k a d st s
  | Layer.reshapeTF, s =>
    match s with
    | [b, t, f, c] =>
      if 0 < f * c ∧ t * f * c % (f * c) = 0 then
        Except.ok [b, t * f * c / (f * c), f * c]
      else
        Except.error "reshape target incompatible with input"
    | _ => Except.error "reshape expects a rank-4 input"
  | Layer.gru u r _, s =>
    match s with
    | [b, t, _] =>
      match strToInt? u with
      | some n =>
        if 0 ≤ n then
          Except.ok (if tokenTruthy r then [b, t, n.toNat] else [b, n.toNat])
        else Except.error "gru units must be nonnegative"
      | none => Except.error "gru units must be an integer"
    | _ => Except.error "gru expects a rank-3 input"
  | Layer.streamFlatten, s =>
    match s with
    | b :: rest => Except.ok [b, rest.prod]
    | [] => Except.error "flatten expects a batched input"
  | Layer.dropout _, s => Except.ok s
  | Layer.dense u _, s =>
    match s with
    | _ :: _ :: _ =>
      match u with
      | PVal.int n =>
        if 0 ≤ n then Except.ok (s.dropLast ++ [n.toNat])
        else Except.error "dense units must be nonnegative"
      | PVal.str t =>
        match strToInt? t with
        | some n =>
          if 0 ≤ n then Except.ok (s.dropLast ++ [n.toNat])
          else Except.error "dense units must be nonnegative"
        | none => Except.error "dense units must be an integer"
    | _ => Except.error "dense expects rank at least 2"

/-- Applies the shape semantics of a list of layers in order, propagating
the first error unchanged. -/
def applyLayers (fw : FrameworkSem) : List Layer → List Nat → Except String (List Nat)
  | [], s => Except.ok s
  | l :: ls, s =>
    match layerShape fw l s with
    | Except.ok s2 => applyLayers fw ls s2
    | Except.error e => Except.error e

/-- The output shape of the graph built by `model`, or the first
graph-construction error. -/
def runModel (fw : FrameworkSem) (flags : Flags) : Except String (List Nat) :=
  applyLayers fw (modelLayers flags) []

/-- Graph construction as the caller sees it: either the finished model
(its layers and output shape) or the propagated construction error. -/
def buildModel (fw : FrameworkSem) (flags : Flags) :
    Except String (List Layer × List Nat) :=
  match applyLayers fw (modelLayers flags) [] with
  | Except.ok s => Except.ok (modelLayers flags, s)
  | Except.error e => Except.error e

/-- The SpeechFeatures black box is shape-sane: on a batched waveform
`[b, n]` it yields some `[b, time, features]` with the batch preserved. -/
def SFShapeOK (fw : FrameworkSem) : Prop :=
  ∀ p b n, ∃ t ft, fw.sfShape p [b, n] = Except.ok [b, t, ft]

/-- The streaming-convolution black box is shape-sane: on a rank-4 input it
yields a rank-4 output with the batch preserved and a positive
feature-times-channel product. -/
def ConvShapeOK (fw : FrameworkSem) : Prop :=
  ∀ p1 p2 p3 p4 p5 b t f c, ∃ t2 f2 c2,
    fw.convShape p1 p2 p3 p4 p5 [b, t, f, c] = Except.ok [b, t2, f2, c2] ∧
    0 < f2 * c2

/-- A concrete shape-sane instantiation of the black boxes, for evaluating
the development on closed inputs. -/
def fwSimple : FrameworkSem :=
  { sfShape := fun _ s =>
      match s with
      | [b, _] => Except.ok [b, 98, 40]
      | _ => Except.error "speech features expects a rank-2 input"
    convShape := fun _ _ _ _ _ s =>
      match s with
      | [b, t, _, _] => Except.ok [b, t, 40, 64]
      | _ => Except.error "conv expects a rank-4 input" }

/-- A black-box instantiation whose convolution stage always fails, for
exercising error propagation on closed inputs. -/
def fwFail : FrameworkSem :=
  { sfShape := fun _ s =>
      match s with
      | [b, _] => Except.ok [b, 98, 40]
      | _ => Except.error "speech features expects a rank-2 input"
    convShape := fun _ _ _ _ _ _ => Except.error "bad conv shape" }

/-- A concrete flags record holding the registered defaults of the eleven
hyperparameters and fixed values for the remaining fields. -/
def defaultFlags : Flags :=
  { cnn_filters := default_cnn_filters
    cnn_kernel_size := default_cnn_kernel_size
    cnn_act := default_cnn_act
    cnn_dilation_rate := default_cnn_dilation_rate
    cnn_strides := default_cnn_strides
    gru_units := "512"
    return_sequences := "1"
    stateful := 0
    dropout1 := 1 / 10
    units1 := ""
    act1 := ""
    desired_samples := 16000
    batch_size := 100
    label_count := 12
    window_size_ms := 40
    window_stride_ms := 20
    sample_rate := 16000
    use_tf_fft := false
    preemph := 0
    window_type := "hann"
    feature_type := "mfcc_tf"
    mel_num_bins := 40
    mel_lower_edge_hertz := 20
    mel_upper_edge_hertz := 7000
    mel_non_zero_only := true
    fft_magnitude_squared := false
    dct_num_features := 40 }

/-- The layer a conv-loop iteration appends for one zipped parameter
tuple. -/
def convOf (q : String × String × String × String × String) : Layer :=
  Layer.streamConv2D q.1 q.2.1 q.2.2.1 q.2.2.2.1 q.2.2.2.2

/-- The layer a gru-loop iteration appends for one zipped pair, given the
shared `flags.stateful`. -/
def gruOf (st : Int) (q : String × String) : Layer :=
  Layer.gru q.1 q.2 st

/-- The layer a hidden-dense-loop iteration appends for one zipped pair. -/
def denseOf (q : String × String) : Layer :=
  Layer.dense (PVal.str q.1) (some q.2)

/-- Tests whether a layer is a streaming Conv2D layer. -/
def isConvL : Layer → Bool
  | Layer.streamConv2D _ _ _ _ _ => true
  | _ => false

/-- Tests whether a layer is a GRU layer. -/
def isGruL : Layer → Bool
  | Layer.gru _ _ _ => true
  | _ => false

/-- Tests whether a layer is a hidden Dense layer (one built by the
units1/act1 loop, which always passes an activation), as opposed to the
final classification Dense layer (which passes none). -/
def isHiddenDenseL : Layer → Bool
  | Layer.dense _ (some _) => true
  | _ => false

/-- A loop that appends one layer per element is a map: the conv loop. -/
lemma foldl_conv_eq (l : List (String × String × String × String × String))
    (init : List Layer) :
    l.foldl
      (fun n q => n ++ [Layer.streamConv2D q.1 q.2.1 q.2.2.1 q.2.2.2.1 q.2.2.2.2])
      init = init ++ l.map convOf := by
  induction l generalizing init with
  | nil => simp
  | cons q t ih => simp [List.foldl_cons, ih, convOf]

/-- A loop that appends one layer per element is a map: the gru loop. -/
lemma foldl_gru_eq (st : Int) (l : List (String × String)) (init : List Layer) :
    l.foldl (fun n q => n ++ [Layer.gru q.1 q.2 st]) init =
      init ++ l.map (gruOf st) := by
  induction l generalizing init with
  | nil => simp
  | cons q t ih => simp [List.foldl_cons, ih, gruOf]

/-- A loop that appends one layer per element is a map: the hidden dense
loop. -/
lemma foldl_dense_eq (l : List (String × String)) (init : List Layer) :
    l.foldl (fun n q => n ++ [Layer.dense (PVal.str q.1) (some q.2)]) init =
      init ++ l.map denseOf := by
  induction l generalizing init with
  | nil => simp
  | cons q t ih => simp [List.foldl_cons, ih, denseOf]

/-- The layer graph of `model` as a concatenation of its stages. -/
lemma modelLayers_eq (f : Flags) :
    modelLayers f =
      [Layer.input f.desired_samples f.batch_size,
       Layer.speechFeatures (sfParamsOf f), Layer.expandDims] ++
      (zip5 (parse f.cnn_filters) (parse f.cnn_kernel_size) (parse f.cnn_act)
        (parse f.cnn_dilation_rate) (parse f.cnn_strides)).map convOf ++
      ([Layer.reshapeTF] ++
        (((parse f.gru_units).zip (parse f.return_sequences)).map
          (gruOf f.stateful) ++
        ([Layer.streamFlatten, Layer.dropout f.dropout1] ++
          (((parse f.units1).zip (parse f.act1)).map denseOf ++
            [Layer.dense (PVal.int (f.label_count : Int)) none])))) := by
  simp [modelLayers, model, foldl_conv_eq, foldl_gru_eq, foldl_dense_eq]

/-- Python's five-way zip truncates to the shortest list. -/
lemma length_zip5 {α β γ δ ε : Type} (as : List α) (bs : List β) (cs : List γ)
    (ds : List δ) (es : List ε) :
    (zip5 as bs cs ds es).length =
      min as.length (min bs.length (min cs.length (min ds.length es.length))) := by
  simp [zip5, List.length_zip]

/-- Sequencing layer lists composes their shape semantics. -/
lemma applyLayers_append (fw : FrameworkSem) (l1 l2 : List Layer) (s : List Nat) :
    applyLayers fw (l1 ++ l2) s =
      (applyLayers fw l1 s).bind (fun s2 => applyLayers fw l2 s2) := by
  induction l1 generalizing s with
  | nil => simp [applyLayers, Except.bind]
  | cons a t ih =>
    simp only [List.cons_append, applyLayers]
    cases layerShape fw a s with
    | ok s2 => simp [ih]
    | error e => simp [Except.bind]

/-- Sequential composition of two successful stages. -/
lemma applyLayers_ok_trans (fw : FrameworkSem) (l1 l2 : List Layer)
    (s s1 s2 : List Nat) (h1 : applyLayers fw l1 s = Except.ok s1)
    (h2 : applyLayers fw l2 s1 = Except.ok s2) :
    applyLayers fw (l1 ++ l2) s = Except.ok s2 := by
  rw [applyLayers_append, h1]
  simpa [Except.bind] using h2

/-- Through a shape-sane convolution stack, a rank-4 batched shape with a
positive feature-times-channel product stays rank-4 and batched with a
positive product. -/
lemma applyLayers_conv_aux (fw : FrameworkSem) (hconv : ConvShapeOK fw)
    (qs : List (String × String × String × String × String))
    (b t f c : Nat) (hp : 0 < f * c) :
    ∃ t2 f2 c2, applyLayers fw (qs.map convOf) [b, t, f, c] =
      Except.ok [b, t2, f2, c2] ∧ 0 < f2 * c2 := by
  induction qs generalizing t f c with
  | nil => exact ⟨t, f, c, rfl, hp⟩
  | cons q rest ih =>
    obtain ⟨t2, f2, c2, hc, hpos⟩ :=
      hconv q.1 q.2.1 q.2.2.1 q.2.2.2.1 q.2.2.2.2 b t f c
    obtain ⟨t3, f3, c3, happ, hpos3⟩ := ih t2 f2 c2 hpos
    refine ⟨t3, f3, c3, ?_, hpos3⟩
    simpa [applyLayers, layerShape, convOf, hc] using happ

/-- A non-empty shape-sane convolution stack turns any rank-4 batched
shape into a rank-4 batched shape with positive feature-times-channel
product. -/
lemma applyLayers_conv_cons (fw : FrameworkSem) (hconv : ConvShapeOK fw)
    (q : String × String × String × String × String)
    (qs : List (String × String × String × String × String))
    (b t f c : Nat) :
    ∃ t2 f2 c2, applyLayers fw ((q :: qs).map convOf) [b, t, f, c] =
      Except.ok [b, t2, f2, c2] ∧ 0 < f2 * c2 := by
  obtain ⟨t2, f2, c2, hc, hpos⟩ :=
    hconv q.1 q.2.1 q.2.2.1 q.2.2.2.1 q.2.2.2.2 b t f c
  obtain ⟨t3, f3, c3, happ, hpos3⟩ :=
    applyLayers_conv_aux fw hconv qs b t2 f2 c2 hpos
  refine ⟨t3, f3, c3, ?_, hpos3⟩
  simpa [applyLayers, layerShape, convOf, hc] using happ

/-- The collapse reshape on a rank-4 shape with positive
feature-times-channel product merges the last two axes exactly. -/
lemma reshapeTF_ok (fw : FrameworkSem) (b t f c : Nat) (h : 0 < f * c) :
    layerShape fw Layer.reshapeTF [b, t, f, c] = Except.ok [b, t, f * c] := by
  have hmod : t * f * c % (f * c) = 0 := by
    rw [mul_assoc]
    exact Nat.mul_mod_left _ _
  have hdiv : t * f * c / (f * c) = t := by
    rw [mul_assoc]
    exact Nat.mul_div_cancel t h
  simp [layerShape, h, hmod, hdiv]

/-- The last element of an appended list is that of its non-empty second
part. -/
lemma getLast?_append_some {α : Type} {l2 : List α} (l1 : List α) {a : α}
    (h : l2.getLast? = some a) : (l1 ++ l2).getLast? = some a := by
  rw [List.getLast?_append_of_ne_nil l1 (by intro hn; simp [hn] at h)]
  exact h

/-- Claim C5: for every flags record, the last layer `model` adds is a
Dense layer whose unit count is exactly `flags.label_count` and whose
activation is `none` (linear), so the returned model emits unnormalized
per-class logits: no softmax or other normalization follows the final
Dense layer. -/
theorem final_dense_label_count_no_activation (f : Flags) :
    (modelLayers f).getLast? =
      some (Layer.dense (PVal.int (f.label_count : Int)) none) := by
  rw [modelLayers_eq]
  apply getLast?_append_some
  apply getLast?_append_some
  apply getLast?_append_some
  apply getLast?_append_some
  apply getLast?_append_some
  rfl

/-- Claim C6: the Reshape layer between the convolution stack and the
recurrent stage, `Reshape((-1, shape[2] * shape[3]))` with `shape` the
output shape of the last convolution layer, maps a tensor of shape
`[batch, time, feature, channels]` to `[batch, time, feature * channels]`:
the product of the last two axes is preserved exactly before the GRU
stage. -/
theorem reshape_collapses_feature_channels (fw : FrameworkSem)
    (b t f c : Nat) (h : 0 < f * c) :
    layerShape fw Layer.reshapeTF [b, t, f, c] = Except.ok [b, t, f * c] :=
  reshapeTF_ok fw b t f c h

/-- Witness for C6 at the concrete shape [2, 3, 5, 4]. -/
theorem reshape_collapses_feature_channels_witness :
    layerShape fwSimple Layer.reshapeTF [2, 3, 5, 4] = Except.ok [2, 3, 20] :=
  reshape_collapses_feature_channels fwSimple 2 3 5 4 (by norm_num)

/-- Claim C9: every GRU layer in the graph carries the single value
`flags.stateful`: statefulness is not a per-layer parsed list, so all GRU
layers share one stateful setting. -/
theorem gru_layers_share_stateful (f : Flags) (u r : String) (st : Int)
    (h : Layer.gru u r st ∈ modelLayers f) : st = f.stateful := by
  rw [modelLayers_eq] at h
  simp only [List.mem_append, List.mem_cons, List.mem_singleton,
    List.mem_map, List.not_mem_nil, or_false] at h
  rcases h with (h | h) | h
  · rcases h with h | h | h | h <;> simp_all
  · obtain ⟨q, _, hq⟩ := h
    simp [convOf] at hq
  · rcases h with h | h
    · simp at h
    · rcases h with h | h
      · obtain ⟨q, _, hq⟩ := h
        simp [gruOf] at hq
        exact hq.2.2.symm
      · rcases h with (h | h) | h
        · simp at h
        · simp at h
        · rcases h with h | h
          · obtain ⟨q, _, hq⟩ := h
            simp [denseOf] at hq
          · simp at h

/-- Witness for C9 at the default flags, whose graph contains the layer
`gru "512" "1" 0`. -/
theorem gru_layers_share_stateful_witness : (0 : Int) = defaultFlags.stateful :=
  gru_layers_share_stateful defaultFlags "512" "1" 0 (by decide)

/-- Claim C10: `model` never modifies its `flags` argument: the flags
record it was called with is returned unchanged, every field (the eleven
registered hyperparameters, the dimensioning fields and all
feature-extraction fields) keeping its value; the function only reads
`flags`. -/
theorem model_does_not_modify_flags (f : Flags) :
    (model f).2 = f ∧
    (model f).2.cnn_filters = f.cnn_filters ∧
    (model f).2.cnn_kernel_size = f.cnn_kernel_size ∧
    (model f).2.cnn_act = f.cnn_act ∧
    (model f).2.cnn_dilation_rate = f.cnn_dilation_rate ∧
    (model f).2.cnn_strides = f.cnn_strides ∧
    (model f).2.gru_units = f.gru_units ∧
    (model f).2.return_sequences = f.return_sequences ∧
    (model f).2.stateful = f.stateful ∧
    (model f).2.dropout1 = f.dropout1 ∧
    (model f).2.units1 = f.units1 ∧
    (model f).2.act1 = f.act1 ∧
    (model f).2.desired_samples = f.desired_samples ∧
    (model f).2.batch_size = f.batch_size ∧
    (model f).2.label_count = f.label_count ∧
    sfParamsOf (model f).2 = sfParamsOf f := by
  refine ⟨rfl, ?_⟩
  simp [model]

/-- Claim C2: the number of layers each loop of `model` builds is the
minimum of the lengths of the parsed lists handed to its `zip`: the conv
loop builds min over filters, kernel_size, act, dilation_rate and strides;
the GRU loop min over gru_units and return_sequences; the hidden-dense
loop min over units1 and act1.  When the lengths agree each loop builds
exactly that many layers, and when they disagree the extra entries are
silently dropped. -/
theorem zip_loops_truncate_to_min (f : Flags) :
    (modelLayers f).countP isConvL =
      min (parse f.cnn_filters).length
        (min (parse f.cnn_kernel_size).length
          (min (parse f.cnn_act).length
            (min (parse f.cnn_dilation_rate).length
              (parse f.cnn_strides).length))) ∧
    (modelLayers f).countP isGruL =
      min (parse f.gru_units).length (parse f.return_sequences).length ∧
    (modelLayers f).countP isHiddenDenseL =
      min (parse f.units1).length (parse f.act1).length := by
  rw [modelLayers_eq]
  refine ⟨?_, ?_, ?_⟩ <;>
    simp only [List.countP_append, List.countP_map, List.countP_cons,
      List.countP_nil]
  · rw [List.countP_eq_length.mpr (fun a _ => by simp [Function.comp, convOf, isConvL]),
      List.countP_eq_zero.mpr (fun a _ => by simp [Function.comp, gruOf, isConvL]),
      List.countP_eq_zero.mpr (fun a _ => by simp [Function.comp, denseOf, isConvL])]
    simp [length_zip5, isConvL]
  · rw [List.countP_eq_zero.mpr (fun a _ => by simp [Function.comp, convOf, isGruL]),
      List.countP_eq_length.mpr (fun a _ => by simp [Function.comp, gruOf, isGruL]),
      List.countP_eq_zero.mpr (fun a _ => by simp [Function.comp, denseOf, isGruL])]
    simp [List.length_zip, isGruL]
  · rw [List.countP_eq_zero.mpr (fun a _ => by simp [Function.comp, convOf, isHiddenDenseL]),
      List.countP_eq_zero.mpr (fun a _ => by simp [Function.comp, gruOf, isHiddenDenseL]),
      List.countP_eq_length.mpr (fun a _ => by simp [Function.comp, denseOf, isHiddenDenseL])]
    simp [List.length_zip, isHiddenDenseL]

/-- Claim C8: the hidden dense stack is optional: when `flags.units1` and
`flags.act1` parse to empty sequences (as with the registered defaults, the
empty string), `model` adds zero hidden Dense layers and the Dropout layer
is followed immediately by the final Dense(label_count) layer. -/
theorem hidden_dense_stack_optional (f : Flags)
    (hu : parse f.units1 = []) (ha : parse f.act1 = []) :
    (modelLayers f).countP isHiddenDenseL = 0 ∧
    ∃ pre, modelLayers f =
      pre ++ [Layer.dropout f.dropout1,
              Layer.dense (PVal.int (f.label_count : Int)) none] := by
  constructor
  · rw [modelLayers_eq, hu]
    simp only [List.zip_nil_left, List.map_nil, List.countP_append,
      List.countP_map, List.countP_cons, List.countP_nil]
    rw [List.countP_eq_zero.mpr (fun a _ => by simp [Function.comp, convOf, isHiddenDenseL]),
      List.countP_eq_zero.mpr (fun a _ => by simp [Function.comp, gruOf, isHiddenDenseL])]
    simp [isHiddenDenseL]
  · refine ⟨[Layer.input f.desired_samples f.batch_size,
      Layer.speechFeatures (sfParamsOf f), Layer.expandDims] ++
      (zip5 (parse f.cnn_filters) (parse f.cnn_kernel_size) (parse f.cnn_act)
        (parse f.cnn_dilation_rate) (parse f.cnn_strides)).map convOf ++
      ([Layer.reshapeTF] ++
        (((parse f.gru_units).zip (parse f.return_sequences)).map
          (gruOf f.stateful) ++ [Layer.streamFlatten])), ?_⟩
    rw [modelLayers_eq, hu]
    simp

/-- Witness for C8 at the default flags, whose `units1` and `act1` are the
empty string. -/
theorem hidden_dense_stack_optional_witness :
    (modelLayers defaultFlags).countP isHiddenDenseL = 0 ∧
    ∃ pre, modelLayers defaultFlags =
      pre ++ [Layer.dropout defaultFlags.dropout1,
              Layer.dense (PVal.int (defaultFlags.label_count : Int)) none] :=
  hidden_dense_stack_optional defaultFlags (by decide) (by decide)

/-- Claim C1: for every flags record whose parameter strings are
well-formed (the parsed lists zipped together have equal lengths N, M, K),
the layer graph built by `model` is exactly: an Input layer, a
SpeechFeatures layer, an expand-dims adding a channel axis, N streaming
Conv2D layers (one per parsed per-layer tuple), the collapsing Reshape, M
GRU layers, a streaming Flatten, one Dropout, K hidden Dense layers, and a
final Dense layer with `label_count` units, in that order with no other
layers. -/
theorem model_layer_graph (f : Flags) (N M K : Nat)
    (hf : (parse f.cnn_filters).length = N)
    (hk : (parse f.cnn_kernel_size).length = N)
    (hac : (parse f.cnn_act).length = N)
    (hd : (parse f.cnn_dilation_rate).length = N)
    (hst : (parse f.cnn_strides).length = N)
    (hg : (parse f.gru_units).length = M)
    (hr : (parse f.return_sequences).length = M)
    (hu1 : (parse f.units1).length = K)
    (ha1 : (parse f.act1).length = K) :
    ∃ convs grus denses : List Layer,
      convs.length = N ∧
      (∀ l ∈ convs, ∃ a b c d e, l = Layer.streamConv2D a b c d e) ∧
      grus.length = M ∧
      (∀ l ∈ grus, ∃ u r, l = Layer.gru u r f.stateful) ∧
      denses.length = K ∧
      (∀ l ∈ denses, ∃ u a, l = Layer.dense (PVal.str u) (some a)) ∧
      modelLayers f =
        [Layer.input f.desired_samples f.batch_size,
         Layer.speechFeatures (sfParamsOf f), Layer.expandDims] ++
        convs ++ [Layer.reshapeTF] ++ grus ++
        [Layer.streamFlatten, Layer.dropout f.dropout1] ++ denses ++
        [Layer.dense (PVal.int (f.label_count : Int)) none] := by
  refine ⟨(zip5 (parse f.cnn_filters) (parse f.cnn_kernel_size)
      (parse f.cnn_act) (parse f.cnn_dilation_rate)
      (parse f.cnn_strides)).map convOf,
    ((parse f.gru_units).zip (parse f.return_sequences)).map (gruOf f.stateful),
    ((parse f.units1).zip (parse f.act1)).map denseOf,
    ?_, ?_, ?_, ?_, ?_, ?_, ?_⟩
  · rw [List.length_map, length_zip5, hf, hk, hac, hd, hst]
    simp
  · intro l hl
    obtain ⟨q, _, hq⟩ := List.mem_map.mp hl
    exact ⟨q.1, q.2.1, q.2.2.1, q.2.2.2.1, q.2.2.2.2, hq.symm⟩
  · rw [List.length_map, List.length_zip, hg, hr]
    simp
  · intro l hl
    obtain ⟨q, _, hq⟩ := List.mem_map.mp hl
    exact ⟨q.1, q.2, hq.symm⟩
  · rw [List.length_map, List.length_zip, hu1, ha1]
    simp
  · intro l hl
    obtain ⟨q, _, hq⟩ := List.mem_map.mp hl
    exact ⟨q.1, q.2, hq.symm⟩
  · rw [modelLayers_eq]
    simp

/-- Witness for C1 at the default flags, with N = 7 conv layers, M = 1 GRU
layer and K = 0 hidden Dense layers. -/
theorem model_layer_graph_witness :
    ∃ convs grus denses : List Layer,
      convs.length = 7 ∧
      (∀ l ∈ convs, ∃ a b c d e, l = Layer.streamConv2D a b c d e) ∧
      grus.length = 1 ∧
      (∀ l ∈ grus, ∃ u r, l = Layer.gru u r defaultFlags.stateful) ∧
      denses.length = 0 ∧
      (∀ l ∈ denses, ∃ u a, l = Layer.dense (PVal.str u) (some a)) ∧
      modelLayers defaultFlags =
        [Layer.input defaultFlags.desired_samples defaultFlags.batch_size,
         Layer.speechFeatures (sfParamsOf defaultFlags), Layer.expandDims] ++
        convs ++ [Layer.reshapeTF] ++ grus ++
        [Layer.streamFlatten, Layer.dropout defaultFlags.dropout1] ++ denses ++
        [Layer.dense (PVal.int (defaultFlags.label_count : Int)) none] :=
  model_layer_graph defaultFlags 7 1 0 (by decide) (by decide) (by decide)
    (by decide) (by decide) (by decide) (by decide) (by decide) (by decide)

/-- Claim C7: `model_parameters` only appends to the parser it is given,
and registers exactly the eleven options cnn_filters, cnn_kernel_size,
cnn_act, cnn_dilation_rate, cnn_strides, gru_units, return_sequences,
stateful, dropout1, units1, act1, in that order, each with its declared
type and default (strings for the delimited lists, int for stateful —
whose default is written as the string "0" — and float 0.1 for dropout1);
no validation of the values is performed at registration. -/
theorem model_parameters_registers_eleven :
    (∀ p : List ArgSpec, model_parameters p = p ++ model_parameters []) ∧
    (model_parameters []).length = 11 ∧
    (model_parameters []).map ArgSpec.name =
      ["cnn_filters", "cnn_kernel_size", "cnn_act", "cnn_dilation_rate",
       "cnn_strides", "gru_units", "return_sequences", "stateful",
       "dropout1", "units1", "act1"] ∧
    (model_parameters []).map ArgSpec.type =
      [ArgType.tStr, ArgType.tStr, ArgType.tStr, ArgType.tStr, ArgType.tStr,
       ArgType.tStr, ArgType.tStr, ArgType.tInt, ArgType.tFloat,
       ArgType.tStr, ArgType.tStr] ∧
    (model_parameters []).map ArgSpec.default =
      [ArgDefault.dStr default_cnn_filters,
       ArgDefault.dStr default_cnn_kernel_size,
       ArgDefault.dStr default_cnn_act,
       ArgDefault.dStr default_cnn_dilation_rate,
       ArgDefault.dStr default_cnn_strides,
       ArgDefault.dStr "512", ArgDefault.dStr "1", ArgDefault.dStr "0",
       ArgDefault.dFloat (1 / 10), ArgDefault.dStr "", ArgDefault.dStr ""] := by
  refine ⟨?_, by decide, by decide, by decide, by rfl⟩
  intro p
  simp [model_parameters, addArgument]

/-- Claim C4: `model` contains no error handling of its own: whenever any
stage of the graph construction fails (its layer prefix evaluates to a
framework error `e`), the whole construction reports exactly that error
`e`, unchanged, and no model object is produced — no exception is caught,
classified, or recovered inside `model`. -/
theorem model_propagates_errors_unchanged (fw : FrameworkSem) (f : Flags)
    (pre post : List Layer) (e : String)
    (hsplit : modelLayers f = pre ++ post)
    (herr : applyLayers fw pre [] = Except.error e) :
    buildModel fw f = Except.error e := by
  unfold buildModel
  rw [hsplit, applyLayers_append, herr]
  rfl

/-- Witness for C4: with a framework whose convolution stage fails, the
default-flags model construction reports that very error. -/
theorem model_propagates_errors_unchanged_witness :
    buildModel fwFail defaultFlags = Except.error "bad conv shape" :=
  model_propagates_errors_unchanged fwFail defaultFlags
    ((modelLayers defaultFlags).take 4) ((modelLayers defaultFlags).drop 4)
    "bad conv shape" (List.take_append_drop 4 (modelLayers defaultFlags)).symm
    (by rfl)

/-- Claim C3: when `model` is called with the default hyperparameter values
registered by `model_parameters` (in particular cnn_filters
64,64,64,64,64,64,128, gru_units 512, return_sequences 1, units1 and act1
empty), and the black-box SpeechFeatures and streaming-convolution layers
are shape-sane, the model's output tensor has shape
[batch_size, label_count]. -/
theorem default_flags_output_shape (fw : FrameworkSem) (f : Flags)
    (h1 : f.cnn_filters = default_cnn_filters)
    (h2 : f.cnn_kernel_size = default_cnn_kernel_size)
    (h3 : f.cnn_act = default_cnn_act)
    (h4 : f.cnn_dilation_rate = default_cnn_dilation_rate)
    (h5 : f.cnn_strides = default_cnn_strides)
    (h6 : f.gru_units = "512")
    (h7 : f.return_sequences = "1")
    (h8 : f.units1 = "")
    (h9 : f.act1 = "")
    (hsf : SFShapeOK fw) (hconv : ConvShapeOK fw) :
    runModel fw f = Except.ok [f.batch_size, f.label_count] := by
  obtain ⟨t0, f0, hsfeq⟩ := hsf (sfParamsOf f) f.batch_size f.desired_samples
  rw [runModel, modelLayers_eq, h1, h2, h3, h4, h5, h6, h7, h8, h9]
  have hne : zip5 (parse default_cnn_filters) (parse default_cnn_kernel_size)
      (parse default_cnn_act) (parse default_cnn_dilation_rate)
      (parse default_cnn_strides) ≠ [] := by decide
  obtain ⟨q, qs, hq⟩ := List.exists_cons_of_ne_nil hne
  rw [hq]
  obtain ⟨t1, f1, c1, happ, hpos⟩ :=
    applyLayers_conv_cons fw hconv q qs f.batch_size t0 f0 1
  have hzipg : (parse "512").zip (parse "1") = [("512", "1")] := by decide
  have hzipd : (parse "").zip (parse "") = ([] : List (String × String)) := by
    decide
  rw [hzipg, hzipd]
  have hA : applyLayers fw
      [Layer.input f.desired_samples f.batch_size,
       Layer.speechFeatures (sfParamsOf f), Layer.expandDims] [] =
      Except.ok [f.batch_size, t0, f0, 1] := by
    simp [applyLayers, layerShape, hsfeq]
  have hf1 : 0 < f1 := by
    rcases Nat.eq_zero_or_pos f1 with hz | hp
    · rw [hz, Nat.zero_mul] at hpos
      exact absurd hpos (lt_irrefl 0)
    · exact hp
  have hc1 : 0 < c1 := by
    rcases Nat.eq_zero_or_pos c1 with hz | hp
    · rw [hz, Nat.mul_zero] at hpos
      exact absurd hpos (lt_irrefl 0)
    · exact hp
  have hmod : t1 * f1 * c1 % (f1 * c1) = 0 := by
    rw [mul_assoc]
    exact Nat.mul_mod_left _ _
  have h512 : strToInt? "512" = some 512 := by decide
  have h512le : (0 : Int) ≤ 512 := by decide
  have h512n : ((512 : Int)).toNat = 512 := by decide
  have h1t : tokenTruthy "1" = true := by decide
  have hRest : applyLayers fw
      ([Layer.reshapeTF] ++
        (List.map (gruOf f.stateful) [("512", "1")] ++
          ([Layer.streamFlatten, Layer.dropout f.dropout1] ++
            (List.map denseOf ([] : List (String × String)) ++
              [Layer.dense (PVal.int (f.label_count : Int)) none]))))
      [f.batch_size, t1, f1, c1] = Except.ok [f.batch_size, f.label_count] := by
    simp [applyLayers, layerShape, gruOf, denseOf, hf1, hc1, hmod, h512,
      h512le, h512n, h1t, Int.natCast_nonneg]
  exact applyLayers_ok_trans fw _ _ _ [f.batch_size, t1, f1, c1] _
    (applyLayers_ok_trans fw _ _ _ [f.batch_size, t0, f0, 1] _ hA happ) hRest

/-- Witness for C3: with the concrete shape-sane framework `fwSimple` and
the concrete default flags (batch_size 100, label_count 12), the output
shape is [100, 12]. -/
theorem default_flags_output_shape_witness :
    runModel fwSimple defaultFlags = Except.ok [100, 12] :=
  default_flags_output_shape fwSimple defaultFlags rfl rfl rfl rfl rfl rfl
    rfl rfl rfl (fun _ b n => ⟨98, 40, rfl⟩)
    (fun _ _ _ _ _ b t f c => ⟨t, 40, 64, rfl, by decide⟩)
